import Mathlib

/-!
Verification development for the web-perception tool server
(session runtime: session manager, browser session, capture ring,
state builder, action executor, replay store).

The TypeScript sources are shallowly embedded: pure functions become Lean
functions, stateful methods become explicit state passing, and interactions
with the browser driver (page url/title, DOM evaluation, accessibility
snapshot, frame events, dispatch outcomes, clock reads) are supplied as
oracle values in environment records.  JavaScript numbers that hold epoch
timestamps are modelled as Int; counters and lengths as Nat.  The SHA-1
content hash used for state tokens is modelled as an abstract function on
the token seed (the deterministically serialized subset of the packet).
-/

deriving instance DecidableEq for Except

namespace WebMCP

/-! Small list helpers used by the embedding (JS `slice(-n)`, `Map` lookup
and `Map.delete` on insertion-ordered association lists). -/

/-- JS `array.slice(-n)`: the last `n` elements (whole list when shorter). -/
def takeRight (n : Nat) (l : List α) : List α :=
  l.drop (l.length - n)

/-- JS `Map.get` on an insertion-ordered association list. -/
def lookupKey (l : List (String × α)) (k : String) : Option α :=
  (l.find? (fun e => e.1 == k)).map Prod.snd

/-- JS `Map.delete` on an insertion-ordered association list (keys are
unique in a `Map`, so removing every matching entry is exact). -/
def eraseKey (l : List (String × α)) (k : String) : List (String × α) :=
  l.filter (fun e => e.1 != k)

/-! JS string primitives, modelled on the character list of the string so
that every use is computable by kernel reduction. -/

/-- JS `String.prototype.toLowerCase` (ASCII case fold). -/
def jsToLower (s : String) : String := ⟨s.data.map Char.toLower⟩

/-- JS `String.prototype.startsWith`. -/
def jsStartsWith (s pat : String) : Bool := pat.data.isPrefixOf s.data

/-- JS `String.prototype.endsWith`. -/
def jsEndsWith (s pat : String) : Bool := pat.data.reverse.isPrefixOf s.data.reverse

/-- JS `String.prototype.trim`. -/
def jsTrim (s : String) : String :=
  ⟨((s.data.dropWhile Char.isWhitespace).reverse.dropWhile Char.isWhitespace).reverse⟩

/-- Containment of `sub` in `l` (JS `String.prototype.includes` on the
character lists). -/
def hasSub (l sub : List Char) : Bool :=
  if sub.isPrefixOf l then true
  else match l with
    | [] => false
    | _ :: tl => hasSub tl sub

/-- JS `String.prototype.includes`. -/
def jsIncludes (s sub : String) : Bool := hasSub s.data sub.data

/-! Core data model (src/types.ts). -/

inductive CaptureProfile where
  | adaptive
  | dom_only
  | frames_only
deriving DecidableEq, Repr

inductive PolicyMode where
  | model_owns_action
  | deterministic
deriving DecidableEq, Repr

inductive AgentAction where
  | click
  | type_
  | press
  | scroll
  | hover
  | drag
  | navigate
  | wait
  | wait_for
deriving DecidableEq, Repr

/-- The string name of an action, as carried in JS (`'type'` etc.). -/
def actionName : AgentAction → String
  | .click => "click"
  | .type_ => "type"
  | .press => "press"
  | .scroll => "scroll"
  | .hover => "hover"
  | .drag => "drag"
  | .navigate => "navigate"
  | .wait => "wait"
  | .wait_for => "wait_for"

structure NetworkEvent where
  id : String
  url : String
  method : String
  status : Option Int
  type : Option String
  time : Int
  failureText : Option String
deriving DecidableEq, Repr

structure FrameRef where
  id : String
  timestamp : Int
  width : Int
  height : Int
  mime : String
  checksum : String
  storage_path : String
deriving DecidableEq, Repr

/-- The six DOM summary counts that enter the state-token seed. -/
structure DomCounts where
  interactive_count : Nat
  buttons : Nat
  text_inputs : Nat
  links : Nat
  iframes : Nat
  canvas_nodes : Nat
deriving DecidableEq, Repr

structure QueueHealth where
  frame_queue_depth : Nat
  frame_queue_max : Nat
  dropped_frames : Nat
  pending_frames : Nat
deriving DecidableEq, Repr

/-- The deterministic serialization input of the state token:
`{url, title, dom-counts-or-empty, networkCount, frameCount}`. -/
structure TokenSeed where
  url : String
  title : String
  dom : Option DomCounts
  networkCount : Nat
  frameCount : Nat
deriving DecidableEq, Repr

structure StatePacket where
  state_token : String
  timestamp : Int
  session_id : String
  url : String
  title : String
  dom : Option DomCounts
  accessibility : Option String
  network_events : List NetworkEvent
  frame_refs : List FrameRef
  change_tokens : List String
  queue_health : QueueHealth
deriving DecidableEq, Repr

/-- Normalized capture settings (src/observe/state-builder.ts ObserveOptions). -/
structure ObserveOptions where
  includeDom : Bool
  includeAx : Bool
  includeNetwork : Bool
  includeFrame : Bool
  maxFrames : Option Nat
deriving DecidableEq, Repr

/-- Caller-supplied capture block of a step input; absent fields are `none`. -/
structure CaptureSettingsInput where
  include_frame : Option Bool
  include_dom : Option Bool
  include_ax : Option Bool
  include_network : Option Bool
  max_frames : Option Nat
deriving DecidableEq, Repr

structure ActionInput where
  session_id : String
  action : AgentAction
  selector : Option String
  text : Option String
  key : Option String
  url : Option String
  x : Option Int
  y : Option Int
  delta_x : Option Int
  delta_y : Option Int
  timeout_ms : Option Int
  capture : Option CaptureSettingsInput
  max_actions_per_step : Option Int
  wait_for : Option String
deriving DecidableEq, Repr

structure ActionResult where
  action : AgentAction
  success : Bool
  status : String
  detail : Option String
  target : Option String
  selector : Option String
  coordinates : Option (Int × Int)
  elapsed_ms : Option Int
deriving DecidableEq, Repr

structure StepResult where
  state : StatePacket
  frame_refs : List FrameRef
  action_result : ActionResult
  error_codes : List String
  next_recommendation : String
  latency_ms : Int
  queue_health : QueueHealth
deriving DecidableEq, Repr

structure SnapshotInput where
  session_id : String
  include_frame : Option Bool
  include_dom : Option Bool
  include_ax : Option Bool
  include_network : Option Bool
deriving DecidableEq, Repr

structure StopInput where
  session_id : String
  preserve_artifacts : Option Bool
deriving DecidableEq, Repr

/-- The payloads the session writes into replay events. The capabilities
and initial snapshot carried by a `create` event are summarized by the
session id, which is the only part the store reads back. -/
inductive ReplayPayload where
  | createP (sessionId : String)
  | stepP (r : StepResult)
  | snapP (st : StatePacket)
  | stopP (sessionId : String) (preserveArtifacts : Bool)
deriving DecidableEq, Repr

structure ReplayEvent where
  type : String
  index : Nat
  /-- The source field `at` (epoch ms); `at` is a Lean keyword. -/
  atMs : Int
  payload : ReplayPayload
deriving DecidableEq, Repr

structure SessionCreateInput where
  target_url : String
  capture_profile : Option CaptureProfile
  policy : Option PolicyMode
  max_steps : Option Nat
  max_duration_ms : Option Int
deriving DecidableEq, Repr

/-! FixedRingBuffer (src/capture/cdp.ts, lines 18-47): fixed-capacity FIFO,
push-with-eviction; `push` appends and then shifts from the front while the
length exceeds `maxDepth`, incrementing `dropped` per shift. -/

structure FixedRingBuffer (T : Type) where
  items : List T
  dropped : Nat
  maxDepth : Nat
deriving DecidableEq, Repr

/-- The `while (items.length > maxDepth) { items.shift(); dropped += 1 }`
loop of `FixedRingBuffer.push`. -/
def shiftWhileOver (maxDepth : Nat) : List T → Nat → List T × Nat
  | [], dropped => ([], dropped)
  | x :: xs, dropped =>
    if (x :: xs).length > maxDepth then shiftWhileOver maxDepth xs (dropped + 1)
    else (x :: xs, dropped)

def FixedRingBuffer.push (rb : FixedRingBuffer T) (value : T) : FixedRingBuffer T :=
  let st := shiftWhileOver rb.maxDepth (rb.items ++ [value]) rb.dropped
  { rb with items := st.1, dropped := st.2 }

def FixedRingBuffer.depth (rb : FixedRingBuffer T) : Nat := rb.items.length

def FixedRingBuffer.getAll (rb : FixedRingBuffer T) : List T := rb.items

/-- A freshly constructed ring (`new FixedRingBuffer(maxDepth)`). -/
def FixedRingBuffer.fresh (T : Type) (maxDepth : Nat) : FixedRingBuffer T :=
  { items := [], dropped := 0, maxDepth }

/-- Push a whole sequence of values in order. -/
def FixedRingBuffer.pushAll (rb : FixedRingBuffer T) (vs : List T) : FixedRingBuffer T :=
  vs.foldl FixedRingBuffer.push rb

/-! ReplayStore (src/replay/replay.ts).  The line-delimited trace file is
modelled as the list of its parsed replay events; `load` of a trace built
purely by `append` calls returns exactly that list, so the manifest event
list is carried directly.  The JSON index file and filesystem paths are kept
only where a claim observes them (`buildTracePath`). -/

namespace ReplayStore

/-- Trace id sanitization: any character outside `[A-Za-z0-9._-]` becomes `_`. -/
def sanitizeTraceId (traceId : String) : String :=
  ⟨traceId.data.map (fun c =>
    if c.isAlphanum || c = '.' || c = '_' || c = '-' then c else '_')⟩

/-- The relative trace-file path `traces/{sanitized}.jsonl` (the absolute
traces root is resolved from the process working directory). -/
def buildTracePath (traceId : String) : String :=
  "traces/" ++ sanitizeTraceId traceId ++ ".jsonl"

/-- The filter of `ReplayStore.filter(trace_id, start?, end?)` applied to the
loaded event list: keep events with `start <= index <= end`, each bound
inclusive and optional. -/
def filterEvents (events : List ReplayEvent) (start? stop? : Option Nat) : List ReplayEvent :=
  events.filter fun ev =>
    (match start? with
     | some s => !(decide (ev.index < s))
     | none => true)
    &&
    (match stop? with
     | some e => !(decide (ev.index > e))
     | none => true)

end ReplayStore

/-! BrowserSession.recordReplayEvent (unnamed/part_004, lines 373-386):
re-load the trace, assign `next_index = loaded_events.length + 1`, append.
`ReplayStore.load` never rejects (a missing file yields an empty manifest),
so the loaded list is always the current trace contents. -/

def BrowserSession.recordReplayEvent (trace : List ReplayEvent) (ty : String)
    (payload : ReplayPayload) (now : Int) : List ReplayEvent :=
  trace ++ [{ type := ty, index := trace.length + 1, atMs := now, payload }]

/-! StateBuilder (src/observe/state-builder.ts).  Page reads are oracle
values in `PageObs`: `url` is `page.url()`, `title` is `page.title()` with
its failure already caught to the empty string, `dom` is the in-page
evaluator's summary (sampled only when DOM is requested), `ax` the
accessibility snapshot (null on failure), `frameQueue` the capture
coordinator's current ring snapshot, and the three queue counters its
observability getters.  `now` is `Date.now()`. -/

structure PageObs where
  url : String
  title : String
  dom : DomCounts
  domTop : List String
  ax : Option String
  frameQueue : List FrameRef
  queueMax : Nat
  droppedFrames : Nat
  pendingFrames : Nat
  now : Int
deriving DecidableEq, Repr

/-- Builder-instance state: the last state token (empty before the first build). -/
structure StateBuilderState where
  lastStateToken : String
deriving DecidableEq, Repr

namespace StateBuilder

/-- Change tokens (lines 299-307): `INIT` when there is no prior token,
`NO_CHANGE` when the token is unchanged, otherwise `STATE_CHANGED`. -/
def computeChangeTokens (previous current : String) : List String :=
  if previous = "" then ["INIT"]
  else if previous = current then ["NO_CHANGE"]
  else ["STATE_CHANGED"]

/-- The token seed assembled by `buildStateSnapshot` (lines 232-247). -/
def tokenSeedOf (options : ObserveOptions) (obs : PageObs)
    (network : List NetworkEvent) (frameRefs : List FrameRef) : TokenSeed :=
  { url := obs.url
    title := obs.title
    dom := if options.includeDom then some obs.dom else none
    networkCount := network.length
    frameCount := frameRefs.length }

/-- `buildStateSnapshot` (lines 218-287), parameterized by the SHA-1 hash
`hash` on the serialized token seed.  `networkRing` is the session's network
event array at the sampling instant; reads take snapshot copies (slices). -/
def buildStateSnapshot (hash : TokenSeed → String) (options : ObserveOptions)
    (obs : PageObs) (networkRing : List NetworkEvent) (sb : StateBuilderState) :
    StatePacket × StateBuilderState :=
  let network := if options.includeNetwork then takeRight 100 networkRing else []
  let frameLimit := if options.includeFrame then max 1 (options.maxFrames.getD 6) else 0
  let frameRefs := if options.includeFrame then takeRight frameLimit obs.frameQueue else []
  let seed := tokenSeedOf options obs network frameRefs
  let stateToken := hash seed
  let changeTokens := computeChangeTokens sb.lastStateToken stateToken
  ({ state_token := stateToken
     timestamp := obs.now
     session_id := "unknown"
     url := obs.url
     title := obs.title
     dom := if options.includeDom then some obs.dom else none
     accessibility := if options.includeAx then obs.ax else none
     network_events := network
     frame_refs := frameRefs
     change_tokens := changeTokens
     queue_health :=
       { frame_queue_depth := obs.frameQueue.length
         frame_queue_max := obs.queueMax
         dropped_frames := obs.droppedFrames
         pending_frames := obs.pendingFrames } },
   { lastStateToken := stateToken })

/-- `withSessionId` (lines 289-297): structural copy with the session id set
and a fresh `queue_health` copy. -/
def withSessionId (state : StatePacket) (sessionId : String) : StatePacket :=
  { state with session_id := sessionId, queue_health := { state.queue_health with } }

end StateBuilder

/-! Policy adapters (src/policy/policy.ts). -/

structure ActionDecision where
  allowed : Bool
  reason : Option String
deriving DecidableEq, Repr

/-- The case-insensitive unsafe-scheme test of `DeterministicPolicy`
(`/(^javascript:|^data:|^file:|^about:|^chrome:)/i`). -/
def hasUnsafeScheme (url : String) : Bool :=
  ["javascript:", "data:", "file:", "about:", "chrome:"].any
    (fun p => jsStartsWith (jsToLower url) p)

/-- `shouldAllowAction`: `PassthroughPolicy` allows everything;
`DeterministicPolicy` blocks `navigate` to an unsafe scheme. -/
def shouldAllowAction (mode : PolicyMode) (input : ActionInput) : ActionDecision :=
  match mode with
  | .model_owns_action => { allowed := true, reason := none }
  | .deterministic =>
    match input.url with
    | some u =>
      if input.action = .navigate && hasUnsafeScheme u then
        { allowed := false, reason := some "navigate to unsafe scheme blocked" }
      else { allowed := true, reason := none }
    | none => { allowed := true, reason := none }

/-! ActionExecutor (src/actions/driver.ts).  The driver dispatch under
timeout is an oracle (`DispatchOutcome`); the executor's observable
behaviour — the phase-1 `max_actions_per_step` rejection, the synthetic
network event appended on success and failure, and the shape of the
returned `ActionResult` — is embedded from the source. -/

structure DispatchOutcome where
  success : Bool
  /-- Error message of the rejected dispatch or timeout, when `success = false`. -/
  detail : String
  selector : Option String
  coordinates : Option (Int × Int)
deriving DecidableEq, Repr

structure ExecEnv where
  startNow : Int
  dispatch : DispatchOutcome
  /-- `page.url()` as read for the result target and the synthetic event. -/
  pageUrl : String
  /-- `Date.now()` at `recordActionEvent`. -/
  eventNow : Int
  endNow : Int
deriving DecidableEq, Repr

namespace ActionExecutor

/-- `recordActionEvent` (lines 269-288): for every executed action, success
or failure, append a synthetic event to the network ring and trim to 400. -/
def recordActionEvent (input : ActionInput) (networkRing : List NetworkEvent)
    (success : Bool) (detail : Option String) (now : Int) (pageUrl : String) :
    List NetworkEvent :=
  let ring := networkRing ++
    [{ id := toString now ++ ":" ++ actionName input.action
       url := pageUrl
       method := actionName input.action
       status := some (if success then 200 else 0)
       type := some (if success then "action" else "action_failed")
       time := now
       failureText := if success then none else detail }]
  if ring.length > 400 then ring.tail else ring

/-- `execute` (lines 99-137).  The timeout clamp `[100, 120000]` (default
8000) feeds the dispatch, whose outcome is the oracle. -/
def execute (input : ActionInput) (networkRing : List NetworkEvent) (env : ExecEnv) :
    ActionResult × List NetworkEvent :=
  let _timeout := min (max (input.timeout_ms.getD 8000) 100) 120000
  let maxActions := input.max_actions_per_step.getD 1
  if maxActions < 1 || maxActions > 1 then
    ({ action := input.action, success := false, status := "rejected"
       detail := some "max_actions_per_step must be 1 in phase 1"
       target := none, selector := none, coordinates := none, elapsed_ms := none },
     networkRing)
  else if env.dispatch.success then
    let ring := recordActionEvent input networkRing true none env.eventNow env.pageUrl
    ({ action := input.action, success := true, status := "completed"
       detail := none
       target := some env.pageUrl
       selector := env.dispatch.selector
       coordinates := env.dispatch.coordinates
       elapsed_ms := some (env.endNow - env.startNow) },
     ring)
  else
    let message := env.dispatch.detail
    let ring := recordActionEvent input networkRing false (some message) env.eventNow env.pageUrl
    ({ action := input.action, success := false, status := "failed"
       detail := some message
       target := none, selector := none, coordinates := none
       elapsed_ms := some (env.endNow - env.startNow) },
     ring)

end ActionExecutor

/-! BrowserSession (unnamed/part_004).  `SessionParams` carries the
immutable construction parameters the step/snapshot/stop paths read
(launch-only parameters — viewport, headless, storage state, metrics sink —
are consumed by `start()` and are not needed by the verified operations).
`SessionState` is the mutable per-session state of a session after a
successful `start()`, where the page, executor and state builder are set
(`stop()` flips `active` but does not clear them); `replay` is the content
of the session's trace file. -/

def DEFAULT_MAX_STEPS : Nat := 500

def DEFAULT_MAX_DURATION_MS : Int := 20 * 60 * 1000

def DEFAULT_CAPTURE_MAX_FRAMES : Nat := 8

structure SessionParams where
  id : String
  traceId : String
  policyMode : PolicyMode
  maxSteps : Nat
  maxDurationMs : Option Int
  captureProfile : CaptureProfile
  maxFrames : Nat
deriving DecidableEq, Repr

structure SessionState where
  active : Bool
  stepIndex : Nat
  createdAt : Int
  networkEvents : List NetworkEvent
  builder : StateBuilderState
  replay : List ReplayEvent
deriving DecidableEq, Repr

namespace BrowserSession

/-- `normalizeCaptureSettings` (lines 333-371).  JS truthiness: an include
flag that is absent or `false` does not count towards `hasAny`. -/
def normalizeCaptureSettings (p : SessionParams) (input : Option CaptureSettingsInput) :
    ObserveOptions :=
  match input with
  | none =>
    { includeDom := p.captureProfile != .frames_only
      includeAx := p.captureProfile != .frames_only
      includeFrame := p.captureProfile != .dom_only
      includeNetwork := true
      maxFrames := some p.maxFrames }
  | some c =>
    let hasAny := c.include_dom.getD false || c.include_ax.getD false
      || c.include_frame.getD false || c.include_network.getD false
    if !hasAny then
      { includeDom := p.captureProfile != .frames_only
        includeAx := p.captureProfile != .frames_only
        includeFrame := p.captureProfile != .dom_only
        includeNetwork := true
        maxFrames := c.max_frames }
    else
      { includeDom := c.include_dom.getD false
        includeAx := c.include_ax.getD false
        includeFrame := c.include_frame.getD false
        includeNetwork := c.include_network.getD false
        maxFrames := c.max_frames }

/-- The private `buildStateSnapshot` wrapper (lines 305-319): build and
stamp the session id. -/
def buildState (hash : TokenSeed → String) (p : SessionParams)
    (options : ObserveOptions) (obs : PageObs) (networkRing : List NetworkEvent)
    (sb : StateBuilderState) : StatePacket × StateBuilderState :=
  let st := StateBuilder.buildStateSnapshot hash options obs networkRing sb
  (StateBuilder.withSessionId st.1 p.id, st.2)

/-- `shouldRetry` (lines 388-393): retry a failure whose message does not
contain "timeout". -/
def shouldRetry (result : ActionResult) : Bool :=
  if !result.success then
    !(jsIncludes (jsToLower (result.detail.getD "")) "timeout")
  else false

/-- Environment of a `step` call: the driver/clock reads in control-flow
order.  `budgetNow` is the `Date.now()` of the duration check, `stepStart`
the step timer origin, `pre`/`post` the page observations of the two state
builds, `exec` the action executor's environment, `endNow` the trailing
`Date.now()` reads (latency, replay timestamp). -/
structure StepEnv where
  budgetNow : Int
  stepStart : Int
  pre : PageObs
  exec : ExecEnv
  post : PageObs
  endNow : Int
deriving DecidableEq, Repr

/-- The post-policy tail of `step` (lines 208-240): execute the action
(mutating the network ring with a synthetic event), build the post-state
with the same normalized settings, advance the step index, touch
`created_at`, compose the step result (appending `NO_NETWORK_EVENT` when
the post-state network list is empty) and append the `step` replay event.
`captureSettings` and `pre` are the step's normalized settings and the
pre-state build already performed by `step`. -/
def stepExecute (hash : TokenSeed → String) (p : SessionParams) (s : SessionState)
    (input : ActionInput) (env : StepEnv) (captureSettings : ObserveOptions)
    (pre : StatePacket × StateBuilderState) : StepResult × SessionState :=
  let exec := ActionExecutor.execute input s.networkEvents env.exec
  let actionResult := exec.1
  let ring := exec.2
  let post := buildState hash p captureSettings env.post ring pre.2
  let state := post.1
  let latency := env.endNow - env.stepStart
  let errorCodes0 : List String := if actionResult.success then [] else ["ACTION_FAILED"]
  let nextRec := if actionResult.success then "continue"
    else if shouldRetry actionResult then "retry" else "fallback_or_abandon"
  let errorCodes := if state.network_events.length = 0
    then errorCodes0 ++ ["NO_NETWORK_EVENT"] else errorCodes0
  let stepResult : StepResult :=
    { state
      frame_refs := state.frame_refs
      action_result := actionResult
      error_codes := errorCodes
      next_recommendation := nextRec
      latency_ms := latency
      queue_health := state.queue_health }
  (stepResult,
    { s with stepIndex := s.stepIndex + 1
             createdAt := env.endNow
             networkEvents := ring
             builder := post.2
             replay := recordReplayEvent s.replay "step" (.stepP stepResult) env.endNow })

/-- `step` (lines 169-241).  Rejections (`session is not active`, budget
exhaustion) are the explicit throws of the source; they occur before any
mutation.  On the policy-denied path the method returns the pre-state
packet immediately: no action executes, no replay event is appended, and
the step index is untouched (only the builder has consumed the pre-build
token).  Metrics recording and the visual-drift signal to the capture
coordinator mutate collaborators outside this state and are not modelled. -/
def step (hash : TokenSeed → String) (p : SessionParams) (s : SessionState)
    (input : ActionInput) (env : StepEnv) : Except String (StepResult × SessionState) :=
  if s.active = false then .error "session is not active"
  else if s.stepIndex ≥ p.maxSteps then
    .error ("max_steps reached: " ++ toString p.maxSteps)
  else if env.budgetNow - s.createdAt > p.maxDurationMs.getD DEFAULT_MAX_DURATION_MS then
    .error "session exceeded max_duration_ms"
  else
    let captureSettings := normalizeCaptureSettings p input.capture
    let pre := buildState hash p captureSettings env.pre s.networkEvents s.builder
    let beforeState := pre.1
    let preDecision := shouldAllowAction p.policyMode input
    if preDecision.allowed = false then
      .ok ({ state := beforeState
             frame_refs := beforeState.frame_refs
             action_result :=
               { action := input.action, success := false, status := "policy_denied"
                 detail := some (preDecision.reason.getD "action blocked by policy")
                 target := none, selector := none, coordinates := none
                 elapsed_ms := some (env.endNow - env.stepStart) }
             error_codes := ["POLICY_DENIED"]
             next_recommendation := "halt"
             latency_ms := env.endNow - env.stepStart
             queue_health := beforeState.queue_health },
           { s with builder := pre.2 })
    else
      .ok (stepExecute hash p s input env captureSettings pre)

/-- `snapshot` (lines 243-253): build a packet honoring the caller's
include flags literally (absent = false) and append a `snapshot` replay
event.  Unlike `step`, the source performs no active-state check here. -/
def snapshot (hash : TokenSeed → String) (p : SessionParams) (s : SessionState)
    (input : SnapshotInput) (obs : PageObs) : StatePacket × SessionState :=
  let opts : ObserveOptions :=
    { includeDom := input.include_dom.getD false
      includeAx := input.include_ax.getD false
      includeFrame := input.include_frame.getD false
      includeNetwork := input.include_network.getD false
      maxFrames := some p.maxFrames }
  let st := buildState hash p opts obs s.networkEvents s.builder
  (st.1,
   { s with builder := st.2
            replay := recordReplayEvent s.replay "snapshot" (.snapP st.1) obs.now })

structure StopResult where
  status : String
  cleanup : String
  tracePath : String
  sessionId : String
deriving DecidableEq, Repr

/-- Teardown oracle of a `stop` call.  `closeFails` covers the capture
coordinator stop and the page/context/browser closes — every one of them is
individually caught in the source, so the flag has no observable effect on
the session state.  `replayAppendFails` makes the best-effort `stop` replay
append reject (swallowed: the event is simply not appended); `cleanupFails`
makes the best-effort trace removal reject (swallowed: the file remains). -/
structure StopEnv where
  closeFails : Bool
  replayAppendFails : Bool
  cleanupFails : Bool
  now : Int
deriving DecidableEq, Repr

/-- `stop` (lines 255-295): idempotent.  A non-active session yields the
`already_stopped`/`noop` result with no state change; otherwise the session
is deactivated, teardown runs best-effort, a `stop` replay event is
appended best-effort, and unless artifacts are preserved the trace file is
removed best-effort.  Every fallible operation on this path is individually
caught, so `stop` never throws. -/
def stop (p : SessionParams) (s : SessionState) (preserveArtifacts : Bool)
    (env : StopEnv) : StopResult × SessionState :=
  if s.active = false then
    ({ status := "already_stopped", cleanup := "noop"
       tracePath := ReplayStore.buildTracePath p.traceId, sessionId := p.id }, s)
  else
    let replay1 := if env.replayAppendFails then s.replay
      else recordReplayEvent s.replay "stop" (.stopP p.id preserveArtifacts) env.now
    let replay2 := if preserveArtifacts then replay1
      else if env.cleanupFails then replay1 else []
    ({ status := "stopped"
       cleanup := if preserveArtifacts then "retained" else "cleaned"
       tracePath := ReplayStore.buildTracePath p.traceId
       sessionId := p.id },
     { s with active := false, replay := replay2 })

end BrowserSession

/-- `getDefaultMaxFrames` (part_004 lines 427-433).  JS truthiness: a
requested max of 0 is falsy and falls back to the default of 8. -/
def getDefaultMaxFrames (captureProfile : CaptureProfile) (requestMax : Option Nat) : Nat :=
  let cap := match requestMax with
    | some r => if r = 0 then DEFAULT_CAPTURE_MAX_FRAMES else min 20 (max 2 r)
    | none => DEFAULT_CAPTURE_MAX_FRAMES
  if captureProfile = .frames_only then cap
  else min 12 (max 3 cap)

/-! URL validation (src/security/validator.ts).  The WHATWG `new URL`
parser of the platform is a parameter `parse` producing the `protocol`
(with trailing colon) and `hostname`, or `none` when parsing throws. -/

structure ParsedUrl where
  protocol : String
  hostname : String
deriving DecidableEq, Repr

structure ValidationError where
  code : String
  message : String
deriving DecidableEq, Repr

structure ValidationResult where
  ok : Bool
  errors : List ValidationError
deriving DecidableEq, Repr

/-- `validateUrl` (validator.ts lines 16-61). -/
def validateUrl (parse : String → Option ParsedUrl) (targetUrl : String)
    (explicitAllowlist explicitDenylist : List String) : ValidationResult :=
  match parse targetUrl with
  | none =>
    { ok := false, errors := [{ code := "INVALID_URL", message := "Unable to parse URL" }] }
  | some parsed =>
    let scheme := parsed.protocol
    let e1 : List ValidationError :=
      if !(scheme = "http:" || scheme = "https:") then
        [{ code := "INVALID_SCHEME", message := "Unsupported scheme: " ++ scheme }]
      else []
    let origin := scheme ++ "//"
    let e2 : List ValidationError :=
      if origin = "chrome://" || origin = "file://" || origin = "about:" then
        [{ code := "DISALLOWED_SCHEME", message := "Blocked scheme: " ++ scheme }]
      else []
    let host := jsToLower parsed.hostname
    let e3 : List ValidationError :=
      if explicitAllowlist.length > 0 then
        let allowed := (explicitAllowlist.map (fun v => jsToLower (jsTrim v))).filter
          (fun v => v ≠ "")
        if !(allowed.any (fun entry => host = entry || jsEndsWith host ("." ++ entry))) then
          [{ code := "DOMAIN_NOT_ALLOWED", message := "Host " ++ host ++ " not in allowlist" }]
        else []
      else []
    let e4 : List ValidationError :=
      if explicitDenylist.length > 0 then
        let denied := (explicitDenylist.map (fun v => jsToLower (jsTrim v))).filter
          (fun v => v ≠ "")
        if denied.any (fun entry => host = entry || jsEndsWith host ("." ++ entry)) then
          [{ code := "DOMAIN_DENIED", message := "Host " ++ host ++ " is denied" }]
        else []
      else []
    let errors := e1 ++ e2 ++ e3 ++ e4
    { ok := errors.length = 0, errors }

/-! SessionManager (unnamed/part_003).  The two insertion-ordered JS `Map`s
(`sessions`, `created`) are association lists; configuration fields are
immutable.  The periodic GC tick, metrics sink and headless default are
process wiring outside the verified operations. -/

structure SessionHandle where
  params : SessionParams
  state : SessionState
deriving DecidableEq, Repr

structure ManagerState where
  sessions : List (String × SessionHandle)
  created : List (String × Int)
  maxSessions : Nat
  allowedDomains : List String
  deniedDomains : List String
  maxAgeMs : Int
  policyMode : PolicyMode
deriving DecidableEq, Repr

namespace SessionManager

/-- `getOldestSessionId` (lines 122-125): the entry with the smallest
creation timestamp, first in insertion order among ties (stable sort head,
realized as a strict-minimum fold). -/
def getOldestSessionId (created : List (String × Int)) : Option String :=
  (created.foldl (fun acc e =>
    match acc with
    | none => some e
    | some b => if e.2 < b.2 then some e else acc) none).map Prod.fst

/-- `stop(sessionId, preserve)` (lines 84-92): delegate to the session's
(never-throwing) stop, then remove it from both maps; unknown id is a
no-op.  The stopped session object becomes unreachable, so its final state
is dropped here. -/
def stop (m : ManagerState) (sessionId : String) (preserveArtifacts : Bool)
    (env : BrowserSession.StopEnv) : ManagerState :=
  match lookupKey m.sessions sessionId with
  | none => m
  | some h =>
    let _ := BrowserSession.stop h.params h.state preserveArtifacts env
    { m with sessions := eraseKey m.sessions sessionId
             created := eraseKey m.created sessionId }

/-- The `for (const [sessionId, startedAt] of this.created.entries())` loop
of `gc` (lines 99-110).  `stop` deletes only the entry under the session id
currently visited, so iterating the entry snapshot matches the live `Map`
iteration.  `envs` injects an arbitrary teardown-failure environment per
session. -/
def gcLoop (maxAgeMs : Int) (now : Int) (envs : String → BrowserSession.StopEnv) :
    List (String × Int) → ManagerState → Nat → Nat × ManagerState
  | [], m, removed => (removed, m)
  | (sessionId, startedAt) :: rest, m, removed =>
    if now - startedAt ≤ maxAgeMs then gcLoop maxAgeMs now envs rest m removed
    else gcLoop maxAgeMs now envs rest (stop m sessionId false (envs sessionId)) (removed + 1)

/-- `gc()` (lines 99-110): stop (non-preserving) every session whose
last-touch timestamp is out of date, and return the count evicted. -/
def gc (m : ManagerState) (now : Int) (envs : String → BrowserSession.StopEnv) :
    Nat × ManagerState :=
  gcLoop m.maxAgeMs now envs m.created m 0

/-- The parts of a `create` result the manager itself assembles; the
capability report and initial snapshot come from `start()`. -/
structure CreateResult where
  session_id : String
  trace_id : String
deriving DecidableEq, Repr

/-- Oracle of a `create` call: the eviction's teardown environment, the
minted UUID, the `Date.now()` reads, and the outcome of `session.start()`
(the started session's state, or the error it throws after releasing its
resources). -/
structure CreateEnv where
  stopEnv : BrowserSession.StopEnv
  sessionId : String
  nowMs : Int
  startOutcome : Except String SessionState
deriving Repr

/-- `create(input)` (lines 42-78).  When the pool is full the oldest
session is evicted by a full, non-preserving stop before URL validation
runs; a validation failure then throws with the joined error codes, and
the eviction is not rolled back.  On a start failure nothing is
registered; on success the new session is registered in both maps. -/
def create (parse : String → Option ParsedUrl) (m : ManagerState)
    (input : SessionCreateInput) (env : CreateEnv) :
    ManagerState × Except String CreateResult :=
  let m1 := if m.sessions.length ≥ m.maxSessions then
      match getOldestSessionId m.created with
      | some oldest => stop m oldest false env.stopEnv
      | none => m
    else m
  let urlValidation := validateUrl parse input.target_url m.allowedDomains m.deniedDomains
  if urlValidation.ok = false then
    (m1, .error (String.intercalate "; "
      (urlValidation.errors.map (fun item => item.code ++ ":" ++ item.message))))
  else
    let sessionId := env.sessionId
    let traceId := "trace_" ++ toString env.nowMs ++ "_" ++ sessionId
    let captureProfile := input.capture_profile.getD .adaptive
    let maxFrames := getDefaultMaxFrames captureProfile input.max_steps
    let policy := input.policy.getD m.policyMode
    match env.startOutcome with
    | .error e => (m1, .error e)
    | .ok startedState =>
      let params : SessionParams :=
        { id := sessionId
          traceId := traceId
          policyMode := policy
          maxSteps := input.max_steps.getD DEFAULT_MAX_STEPS
          maxDurationMs := input.max_duration_ms
          captureProfile := captureProfile
          maxFrames := maxFrames }
      ({ m1 with sessions := m1.sessions ++ [(sessionId, ⟨params, startedState⟩)]
                 created := m1.created ++ [(sessionId, env.nowMs)] },
       .ok { session_id := sessionId, trace_id := traceId })

end SessionManager

/-! ToolHandler (unnamed/part_002). -/

structure SessionStopResult where
  session_id : String
  final_status : String
  cleanup_status : String
  trace_path : String
  retained_logs : Bool
deriving DecidableEq, Repr

namespace ToolHandler

/-- `ToolHandler.stop` (lines 258-274): unknown session ids throw
`Unknown session_id: {id}`; otherwise the session is stopped and then
removed from the manager.  The nested `sessionManager.stop` re-invokes
stop on the now-inactive session (a no-op) and deletes the map entries. -/
def stop (m : ManagerState) (input : StopInput) (env : BrowserSession.StopEnv) :
    ManagerState × Except String SessionStopResult :=
  match lookupKey m.sessions input.session_id with
  | none => (m, .error ("Unknown session_id: " ++ input.session_id))
  | some session =>
    let preserve := input.preserve_artifacts.getD false
    let stopRes := (BrowserSession.stop session.params session.state preserve env).1
    let m1 := SessionManager.stop m input.session_id preserve env
    (m1, .ok
      { session_id := input.session_id
        final_status := stopRes.status
        cleanup_status := stopRes.cleanup
        trace_path := stopRes.tracePath
        retained_logs := stopRes.cleanup = "retained" })

end ToolHandler

/-! Frame-ring lemmas (claim C2). -/

theorem shiftWhileOver_of_le {T : Type} (maxDepth : Nat) (l : List T) (d : Nat)
    (h : l.length ≤ maxDepth) : shiftWhileOver maxDepth l d = (l, d) := by
  cases l with
  | nil => rfl
  | cons x xs =>
    rw [shiftWhileOver, if_neg]
    omega

theorem shiftWhileOver_of_succ {T : Type} (maxDepth : Nat) (l : List T) (d : Nat)
    (h : l.length = maxDepth + 1) : shiftWhileOver maxDepth l d = (l.tail, d + 1) := by
  cases l with
  | nil => simp at h
  | cons x xs =>
    rw [shiftWhileOver, if_pos (by omega)]
    exact shiftWhileOver_of_le maxDepth xs (d + 1) (by simp at h; omega)

theorem push_takeRight {T : Type} (C : Nat) (hC : 1 ≤ C) (p : List T) (v : T) :
    FixedRingBuffer.push ⟨takeRight C p, p.length - C, C⟩ v
      = ⟨takeRight C (p ++ [v]), (p ++ [v]).length - C, C⟩ := by
  have hlen : (takeRight C p).length = p.length - (p.length - C) := List.length_drop _ _
  by_cases hlt : p.length < C
  · have h0 : p.length - C = 0 := by omega
    have h1 : takeRight C p = p := by simp [takeRight, h0]
    have h0' : (p ++ [v]).length - C = 0 := by simp; omega
    have h3 : takeRight C (p ++ [v]) = p ++ [v] := by
      simp [takeRight, show p.length + 1 - C = 0 from by omega]
    show FixedRingBuffer.mk (shiftWhileOver C (takeRight C p ++ [v]) (p.length - C)).1
        (shiftWhileOver C (takeRight C p ++ [v]) (p.length - C)).2 C = _
    rw [h1, h0, shiftWhileOver_of_le C (p ++ [v]) 0 (by simp; omega), h3, h0']
  · have hge : C ≤ p.length := by omega
    have hlenC : (takeRight C p).length = C := by omega
    obtain ⟨x, xs, hx⟩ : ∃ x xs, takeRight C p = x :: xs := by
      cases hcase : takeRight C p with
      | nil => rw [hcase] at hlenC; simp at hlenC; omega
      | cons a as => exact ⟨a, as, rfl⟩
    have htail : (takeRight C p).tail = p.drop (p.length + 1 - C) := by
      show (p.drop (p.length - C)).tail = _
      rw [List.tail_drop]
      congr 1
      omega
    have hdropapp : takeRight C (p ++ [v]) = p.drop (p.length + 1 - C) ++ [v] := by
      show (p ++ [v]).drop ((p ++ [v]).length - C) = _
      rw [List.length_append]
      have : p.length + [v].length - C = p.length + 1 - C := by simp
      rw [this, List.drop_append_of_le_length (by omega)]
    show FixedRingBuffer.mk (shiftWhileOver C (takeRight C p ++ [v]) (p.length - C)).1
        (shiftWhileOver C (takeRight C p ++ [v]) (p.length - C)).2 C = _
    rw [shiftWhileOver_of_succ C (takeRight C p ++ [v]) (p.length - C) (by simp [hlenC])]
    rw [hx] at htail ⊢
    simp only [List.cons_append, List.tail_cons] at htail ⊢
    rw [← htail] at hdropapp
    rw [hdropapp]
    have : p.length - C + 1 = (p ++ [v]).length - C := by simp; omega
    rw [this]

theorem pushAll_takeRight {T : Type} (C : Nat) (hC : 1 ≤ C) (p vs : List T) :
    FixedRingBuffer.pushAll ⟨takeRight C p, p.length - C, C⟩ vs
      = ⟨takeRight C (p ++ vs), (p ++ vs).length - C, C⟩ := by
  induction vs generalizing p with
  | nil => simp [FixedRingBuffer.pushAll]
  | cons v vs ih =>
    show FixedRingBuffer.pushAll
      (FixedRingBuffer.push ⟨takeRight C p, p.length - C, C⟩ v) vs = _
    rw [push_takeRight C hC p v, ih (p ++ [v])]
    simp

theorem getLast?_takeRight {T : Type} (C : Nat) (hC : 1 ≤ C) (l : List T) :
    (takeRight C l).getLast? = l.getLast? := by
  cases hcase : takeRight C l with
  | nil =>
    have hlen0 : (takeRight C l).length = l.length - (l.length - C) := List.length_drop _ _
    rw [hcase] at hlen0
    simp at hlen0
    have hl : l = [] := by
      cases l with
      | nil => rfl
      | cons a as =>
        exfalso
        simp at hlen0
        omega
    subst hl
    simp [takeRight] at hcase ⊢
  | cons a as =>
    conv_rhs => rw [← List.take_append_drop (l.length - C) l]
    rw [List.getLast?_append_of_ne_nil]
    · rw [show l.drop (l.length - C) = takeRight C l from rfl, hcase]
    · show takeRight C l ≠ []
      rw [hcase]
      simp

/-- Claim C2: for every fresh frame ring of capacity `C ≥ 1` and every
push sequence `vs` of length `N`, the ring depth is `min N C` (hence never
exceeds `C`), the dropped counter is `N - C` (truncated subtraction, i.e.
`max 0 (N - C)`), and the newest ring entry is the last value pushed.  The
bound holds for every such sequence, hence at every intermediate state; the
S5 instance `N = C + 3` gives depth `C`, dropped `3`, tail last-pushed
(see the witness). -/
theorem claim_C2_frame_ring_eviction {T : Type} (C : Nat) (hC : 1 ≤ C) (vs : List T) :
    ((FixedRingBuffer.fresh T C).pushAll vs).depth = min vs.length C
    ∧ ((FixedRingBuffer.fresh T C).pushAll vs).depth ≤ C
    ∧ ((FixedRingBuffer.fresh T C).pushAll vs).dropped = vs.length - C
    ∧ ((FixedRingBuffer.fresh T C).pushAll vs).items.getLast? = vs.getLast? := by
  have hfresh : FixedRingBuffer.fresh T C
      = FixedRingBuffer.mk (takeRight C ([] : List T)) (([] : List T).length - C) C := by
    simp [FixedRingBuffer.fresh, takeRight]
  rw [hfresh, pushAll_takeRight C hC [] vs]
  simp only [List.nil_append]
  have hdepth : (takeRight C vs).length = min vs.length C := by
    have h : (takeRight C vs).length = vs.length - (vs.length - C) :=
      List.length_drop (vs.length - C) vs
    omega
  refine ⟨?_, ?_, ?_, ?_⟩
  · exact hdepth
  · show (takeRight C vs).length ≤ C
    omega
  · trivial
  · exact getLast?_takeRight C hC vs

/-! Replay-trace lemmas (claim C5). -/

/-- A trace file produced purely by session appends
(`BrowserSession.recordReplayEvent`), one `(type, timestamp, payload)`
triple per append, in order. -/
def appendTrace (tr : List ReplayEvent) (ps : List (String × Int × ReplayPayload)) :
    List ReplayEvent :=
  ps.foldl (fun acc e => BrowserSession.recordReplayEvent acc e.1 e.2.2 e.2.1) tr

theorem appendTrace_map_index (ps : List (String × Int × ReplayPayload))
    (tr : List ReplayEvent) :
    (appendTrace tr ps).map ReplayEvent.index
      = tr.map ReplayEvent.index ++ List.range' (tr.length + 1) ps.length := by
  induction ps generalizing tr with
  | nil => simp [appendTrace]
  | cons p ps ih =>
    show (appendTrace (BrowserSession.recordReplayEvent tr p.1 p.2.2 p.2.1) ps).map _ = _
    rw [ih]
    simp [BrowserSession.recordReplayEvent, List.range'_succ]

theorem filterEvents_none_none (tr : List ReplayEvent) :
    ReplayStore.filterEvents tr none none = tr := by
  simp [ReplayStore.filterEvents]

theorem filterEvents_drop (tr : List ReplayEvent) (a : Nat) :
    ∀ c : Nat, tr.map ReplayEvent.index = List.range' c tr.length →
      ReplayStore.filterEvents tr (some a) none = tr.drop (a - c) := by
  induction tr with
  | nil => intro c _; simp [ReplayStore.filterEvents]
  | cons ev tl ih =>
    intro c h
    rw [List.length_cons, List.range'_succ, List.map_cons] at h
    have h1 : ev.index = c := (List.cons.injEq _ _ _ _ ▸ h).1
    have h2 : tl.map ReplayEvent.index = List.range' (c + 1) tl.length :=
      (List.cons.injEq _ _ _ _ ▸ h).2
    show ((ev :: tl).filter fun e => !decide (e.index < a) && true) = _
    rw [List.filter_cons]
    by_cases hlt : ev.index < a
    · rw [if_neg (by simp [hlt])]
      rw [show a - c = (a - (c + 1)) + 1 from by omega, List.drop_succ_cons]
      exact ih (c + 1) h2
    · rw [if_pos (by simp [hlt])]
      rw [show a - c = 0 from by omega, List.drop_zero]
      have htl := ih (c + 1) h2
      rw [show a - (c + 1) = 0 from by omega, List.drop_zero] at htl
      rw [show (tl.filter fun e => !decide (e.index < a) && true)
          = ReplayStore.filterEvents tl (some a) none from rfl, htl]

theorem filterEvents_take (tr : List ReplayEvent) (b : Nat) :
    ∀ c : Nat, tr.map ReplayEvent.index = List.range' c tr.length →
      ReplayStore.filterEvents tr none (some b) = tr.take (b + 1 - c) := by
  induction tr with
  | nil => intro c _; simp [ReplayStore.filterEvents]
  | cons ev tl ih =>
    intro c h
    rw [List.length_cons, List.range'_succ, List.map_cons] at h
    have h1 : ev.index = c := (List.cons.injEq _ _ _ _ ▸ h).1
    have h2 : tl.map ReplayEvent.index = List.range' (c + 1) tl.length :=
      (List.cons.injEq _ _ _ _ ▸ h).2
    show ((ev :: tl).filter fun e => true && !decide (e.index > b)) = _
    rw [List.filter_cons]
    by_cases hgt : ev.index > b
    · rw [if_neg (by simp [hgt])]
      rw [show b + 1 - c = 0 from by omega, List.take_zero]
      have htl := ih (c + 1) h2
      rw [show b + 1 - (c + 1) = 0 from by omega, List.take_zero] at htl
      exact htl
    · rw [if_pos (by simp [hgt])]
      rw [show b + 1 - c = (b - c) + 1 from by omega, List.take_succ_cons]
      have htl := ih (c + 1) h2
      rw [show b + 1 - (c + 1) = b - c from by omega] at htl
      rw [show (tl.filter fun e => true && !decide (e.index > b))
          = ReplayStore.filterEvents tl none (some b) from rfl, htl]

theorem filterEvents_drop_take (tr : List ReplayEvent) (a b : Nat) :
    ∀ c : Nat, tr.map ReplayEvent.index = List.range' c tr.length →
      ReplayStore.filterEvents tr (some a) (some b)
        = (tr.drop (a - c)).take (b + 1 - max a c) := by
  induction tr with
  | nil => intro c _; simp [ReplayStore.filterEvents]
  | cons ev tl ih =>
    intro c h
    rw [List.length_cons, List.range'_succ, List.map_cons] at h
    have h1 : ev.index = c := (List.cons.injEq _ _ _ _ ▸ h).1
    have h2 : tl.map ReplayEvent.index = List.range' (c + 1) tl.length :=
      (List.cons.injEq _ _ _ _ ▸ h).2
    show ((ev :: tl).filter fun e => !decide (e.index < a) && !decide (e.index > b)) = _
    rw [List.filter_cons]
    have htl := ih (c + 1) h2
    rw [show (tl.filter fun e => !decide (e.index < a) && !decide (e.index > b))
        = ReplayStore.filterEvents tl (some a) (some b) from rfl]
    by_cases hlt : ev.index < a
    · rw [if_neg (by simp [hlt])]
      rw [show a - c = (a - (c + 1)) + 1 from by omega, List.drop_succ_cons]
      rw [htl]
      congr 1
      omega
    · by_cases hgt : ev.index > b
      · rw [if_neg (by simp [hlt, hgt])]
        rw [htl]
        rw [show b + 1 - max a (c + 1) = 0 from by omega, List.take_zero,
          show b + 1 - max a c = 0 from by omega, List.take_zero]
      · rw [if_pos (by simp [hlt, hgt])]
        rw [htl]
        rw [show a - c = 0 from by omega, show a - (c + 1) = 0 from by omega,
          List.drop_zero, List.drop_zero]
        rw [show b + 1 - max a c = (b + 1 - max a (c + 1)) + 1 from by omega,
          List.take_succ_cons]

/-- Claim C5: in a trace whose events were appended by the session (which
assigns `next_index = loaded_events.length + 1`), the indices are dense and
1-based in append order, and `filter(trace_id, start, end)` keeps exactly
the events with `start <= index <= end`, each bound inclusive and optional:
with both bounds it is the contiguous slice of positions `start-1 .. end-1`
(so appending events 1..5 and filtering 2..4 yields exactly the three
middle events in index order). -/
theorem claim_C5_replay_filter_roundtrip (ps : List (String × Int × ReplayPayload))
    (a b : Nat) :
    (appendTrace [] ps).map ReplayEvent.index = List.range' 1 ps.length
    ∧ ReplayStore.filterEvents (appendTrace [] ps) none none = appendTrace [] ps
    ∧ ReplayStore.filterEvents (appendTrace [] ps) (some a) none
        = (appendTrace [] ps).drop (a - 1)
    ∧ ReplayStore.filterEvents (appendTrace [] ps) none (some b)
        = (appendTrace [] ps).take b
    ∧ ReplayStore.filterEvents (appendTrace [] ps) (some a) (some b)
        = ((appendTrace [] ps).drop (a - 1)).take (b + 1 - max a 1) := by
  have hmap : (appendTrace [] ps).map ReplayEvent.index = List.range' 1 ps.length := by
    have h := appendTrace_map_index ps []
    simpa using h
  have hlen : (appendTrace [] ps).length = ps.length := by
    have h := congrArg List.length hmap
    simpa using h
  have hdense : (appendTrace [] ps).map ReplayEvent.index
      = List.range' 1 (appendTrace [] ps).length := by rw [hlen]; exact hmap
  refine ⟨hmap, filterEvents_none_none _, filterEvents_drop _ a 1 hdense, ?_, ?_⟩
  · have h := filterEvents_take (appendTrace [] ps) b 1 hdense
    simpa using h
  · exact filterEvents_drop_take (appendTrace [] ps) a b 1 hdense

/-! Capture-settings normalization (claim C6). -/

/-- Modelled from the spec's words for step 2 of `step` ("Normalize capture
settings"): if the caller sent no capture block, use profile defaults
(DOM and AX included iff the profile is not `frames_only`, frames included
iff the profile is not `dom_only`, network always) with the session frame
cap; if the caller sent a block in which no include flag is set, also use
the profile defaults while preserving the caller's `max_frames`; otherwise
honor exactly the caller's flags. -/
def specNormalizeCapture (p : SessionParams) (input : Option CaptureSettingsInput) :
    ObserveOptions :=
  match input with
  | none =>
    { includeDom := decide (p.captureProfile ≠ .frames_only)
      includeAx := decide (p.captureProfile ≠ .frames_only)
      includeFrame := decide (p.captureProfile ≠ .dom_only)
      includeNetwork := true
      maxFrames := some p.maxFrames }
  | some c =>
    if c.include_dom.getD false = false ∧ c.include_ax.getD false = false
        ∧ c.include_frame.getD false = false ∧ c.include_network.getD false = false then
      { includeDom := decide (p.captureProfile ≠ .frames_only)
        includeAx := decide (p.captureProfile ≠ .frames_only)
        includeFrame := decide (p.captureProfile ≠ .dom_only)
        includeNetwork := true
        maxFrames := c.max_frames }
    else
      { includeDom := c.include_dom.getD false
        includeAx := c.include_ax.getD false
        includeFrame := c.include_frame.getD false
        includeNetwork := c.include_network.getD false
        maxFrames := c.max_frames }

theorem profile_bne_eq_decide (x y : CaptureProfile) : (x != y) = decide (x ≠ y) := by
  cases x <;> cases y <;> rfl

/-- Claim C6: the session's capture-settings normalization agrees with the
spec's description on every profile and every caller input (a flag is
"set" when it is present and true, matching JS truthiness). -/
theorem claim_C6_capture_normalization (p : SessionParams)
    (input : Option CaptureSettingsInput) :
    BrowserSession.normalizeCaptureSettings p input = specNormalizeCapture p input := by
  cases input with
  | none =>
    simp [BrowserSession.normalizeCaptureSettings, specNormalizeCapture,
      profile_bne_eq_decide]
  | some c =>
    simp only [BrowserSession.normalizeCaptureSettings, specNormalizeCapture,
      profile_bne_eq_decide]
    by_cases hd : c.include_dom.getD false = true <;>
      by_cases ha : c.include_ax.getD false = true <;>
        by_cases hf : c.include_frame.getD false = true <;>
          by_cases hn : c.include_network.getD false = true <;>
            simp [hd, ha, hf, hn]

/-! Change-token lemmas (claim C7). -/

/-- The token seed a `buildStateSnapshot` call assembles from its inputs
(factored from `StateBuilder.buildStateSnapshot`, with which it agrees
definitionally). -/
def StateBuilder.buildSeed (options : ObserveOptions) (obs : PageObs)
    (networkRing : List NetworkEvent) : TokenSeed :=
  let network := if options.includeNetwork then takeRight 100 networkRing else []
  let frameLimit := if options.includeFrame then max 1 (options.maxFrames.getD 6) else 0
  let frameRefs := if options.includeFrame then takeRight frameLimit obs.frameQueue else []
  StateBuilder.tokenSeedOf options obs network frameRefs

/-- Claim C7: a builder's first packet carries `["INIT"]`; every
subsequent packet carries `["NO_CHANGE"]` when its state token equals the
previously built packet's token and `["STATE_CHANGED"]` otherwise.  On an
unchanging page three consecutive builds give INIT, NO_CHANGE, NO_CHANGE,
and the first build after the url mutates gives STATE_CHANGED.  The SHA-1
hash is abstract; `h1` states that tokens are never the empty string (a
SHA-1 hex digest has 40 characters) and `hmut` that the mutated-url seed
hashes differently (SHA-1 collision-freeness at this pair). -/
theorem claim_C7_change_token_sequence (hash : TokenSeed → String)
    (opts opts2 : ObserveOptions) (obs obs2 : PageObs)
    (ring ring2 : List NetworkEvent) (u2 : String)
    (h1 : hash (StateBuilder.buildSeed opts obs ring) ≠ "")
    (hmut : hash (StateBuilder.buildSeed opts { obs with url := u2 } ring)
        ≠ hash (StateBuilder.buildSeed opts obs ring)) :
    let fresh : StateBuilderState := { lastStateToken := "" }
    let b1 := StateBuilder.buildStateSnapshot hash opts obs ring fresh
    let b2 := StateBuilder.buildStateSnapshot hash opts obs ring b1.2
    let b3 := StateBuilder.buildStateSnapshot hash opts obs ring b2.2
    let b4 := StateBuilder.buildStateSnapshot hash opts { obs with url := u2 } ring b3.2
    let c2 := StateBuilder.buildStateSnapshot hash opts2 obs2 ring2 b1.2
    b1.1.change_tokens = ["INIT"]
    ∧ b1.2.lastStateToken = b1.1.state_token
    ∧ c2.1.change_tokens
        = (if c2.1.state_token = b1.1.state_token then ["NO_CHANGE"] else ["STATE_CHANGED"])
    ∧ b2.1.change_tokens = ["NO_CHANGE"]
    ∧ b3.1.change_tokens = ["NO_CHANGE"]
    ∧ b4.1.change_tokens = ["STATE_CHANGED"] := by
  intro fresh b1 b2 b3 b4 c2
  refine ⟨?_, ?_, ?_, ?_, ?_, ?_⟩
  · show StateBuilder.computeChangeTokens "" (hash (StateBuilder.buildSeed opts obs ring))
        = ["INIT"]
    simp [StateBuilder.computeChangeTokens]
  · rfl
  · show StateBuilder.computeChangeTokens (hash (StateBuilder.buildSeed opts obs ring))
        (hash (StateBuilder.buildSeed opts2 obs2 ring2))
      = (if hash (StateBuilder.buildSeed opts2 obs2 ring2)
            = hash (StateBuilder.buildSeed opts obs ring)
         then ["NO_CHANGE"] else ["STATE_CHANGED"])
    by_cases heq : hash (StateBuilder.buildSeed opts2 obs2 ring2)
        = hash (StateBuilder.buildSeed opts obs ring)
    · simp [StateBuilder.computeChangeTokens, h1, heq]
    · have hne2 : hash (StateBuilder.buildSeed opts obs ring)
          ≠ hash (StateBuilder.buildSeed opts2 obs2 ring2) := fun h => heq h.symm
      simp [StateBuilder.computeChangeTokens, h1, heq, hne2]
  · show StateBuilder.computeChangeTokens (hash (StateBuilder.buildSeed opts obs ring))
        (hash (StateBuilder.buildSeed opts obs ring)) = ["NO_CHANGE"]
    simp [StateBuilder.computeChangeTokens, h1]
  · show StateBuilder.computeChangeTokens (hash (StateBuilder.buildSeed opts obs ring))
        (hash (StateBuilder.buildSeed opts obs ring)) = ["NO_CHANGE"]
    simp [StateBuilder.computeChangeTokens, h1]
  · show StateBuilder.computeChangeTokens (hash (StateBuilder.buildSeed opts obs ring))
        (hash (StateBuilder.buildSeed opts { obs with url := u2 } ring)) = ["STATE_CHANGED"]
    have hne4 : hash (StateBuilder.buildSeed opts obs ring)
        ≠ hash (StateBuilder.buildSeed opts { obs with url := u2 } ring) :=
      fun h => hmut h.symm
    simp [StateBuilder.computeChangeTokens, h1, hne4]

/-! Step-path lemmas (claims C1 and C9). -/

/-- On an active, in-budget session whose policy allows the action, `step`
reaches the execution tail. -/
theorem step_eq_stepExecute (hash : TokenSeed → String) (p : SessionParams)
    (s : SessionState) (input : ActionInput) (env : BrowserSession.StepEnv)
    (hactive : s.active = true)
    (hsteps : s.stepIndex < p.maxSteps)
    (hdur : env.budgetNow - s.createdAt ≤ p.maxDurationMs.getD DEFAULT_MAX_DURATION_MS)
    (hallow : (shouldAllowAction p.policyMode input).allowed = true) :
    BrowserSession.step hash p s input env
      = .ok (BrowserSession.stepExecute hash p s input env
          (BrowserSession.normalizeCaptureSettings p input.capture)
          (BrowserSession.buildState hash p
            (BrowserSession.normalizeCaptureSettings p input.capture)
            env.pre s.networkEvents s.builder)) := by
  simp only [BrowserSession.step]
  rw [if_neg (show ¬(s.active = false) from by simp [hactive]),
    if_neg (show ¬(s.stepIndex ≥ p.maxSteps) from by omega),
    if_neg (show ¬(env.budgetNow - s.createdAt
      > p.maxDurationMs.getD DEFAULT_MAX_DURATION_MS) from by omega),
    if_neg (show ¬((shouldAllowAction p.policyMode input).allowed = false)
      from by simp [hallow])]

/-- Claim C1: a step whose input the policy adapter denies returns
immediately with `action_result.status = "policy_denied"`,
`error_codes = ["POLICY_DENIED"]`, `next_recommendation = "halt"`, carrying
the pre-state packet and its frame refs; no action is executed (the network
ring is untouched and the result is independent of the dispatch oracle),
the step index is unchanged, and no replay event is appended — only the
builder has consumed the pre-build token. -/
theorem claim_C1_policy_denied_step (hash : TokenSeed → String) (p : SessionParams)
    (s : SessionState) (input : ActionInput) (env : BrowserSession.StepEnv)
    (hactive : s.active = true)
    (hsteps : s.stepIndex < p.maxSteps)
    (hdur : env.budgetNow - s.createdAt ≤ p.maxDurationMs.getD DEFAULT_MAX_DURATION_MS)
    (hdeny : (shouldAllowAction p.policyMode input).allowed = false) :
    BrowserSession.step hash p s input env = .ok
      ({ state := (BrowserSession.buildState hash p
            (BrowserSession.normalizeCaptureSettings p input.capture)
            env.pre s.networkEvents s.builder).1
         frame_refs := (BrowserSession.buildState hash p
            (BrowserSession.normalizeCaptureSettings p input.capture)
            env.pre s.networkEvents s.builder).1.frame_refs
         action_result :=
           { action := input.action, success := false, status := "policy_denied"
             detail := some ((shouldAllowAction p.policyMode input).reason.getD
               "action blocked by policy")
             target := none, selector := none, coordinates := none
             elapsed_ms := some (env.endNow - env.stepStart) }
         error_codes := ["POLICY_DENIED"]
         next_recommendation := "halt"
         latency_ms := env.endNow - env.stepStart
         queue_health := (BrowserSession.buildState hash p
            (BrowserSession.normalizeCaptureSettings p input.capture)
            env.pre s.networkEvents s.builder).1.queue_health },
       { s with builder := (BrowserSession.buildState hash p
            (BrowserSession.normalizeCaptureSettings p input.capture)
            env.pre s.networkEvents s.builder).2 })
    ∧ ({ s with builder := (BrowserSession.buildState hash p
            (BrowserSession.normalizeCaptureSettings p input.capture)
            env.pre s.networkEvents s.builder).2 } : SessionState).stepIndex = s.stepIndex
    ∧ ({ s with builder := (BrowserSession.buildState hash p
            (BrowserSession.normalizeCaptureSettings p input.capture)
            env.pre s.networkEvents s.builder).2 } : SessionState).replay = s.replay
    ∧ ({ s with builder := (BrowserSession.buildState hash p
            (BrowserSession.normalizeCaptureSettings p input.capture)
            env.pre s.networkEvents s.builder).2 } : SessionState).networkEvents
        = s.networkEvents := by
  refine ⟨?_, rfl, rfl, rfl⟩
  simp only [BrowserSession.step]
  rw [if_neg (show ¬(s.active = false) from by simp [hactive]),
    if_neg (show ¬(s.stepIndex ≥ p.maxSteps) from by omega),
    if_neg (show ¬(env.budgetNow - s.createdAt
      > p.maxDurationMs.getD DEFAULT_MAX_DURATION_MS) from by omega),
    if_pos hdeny]

/-! Concrete sample inputs used by witnesses. -/

/-- A simple concrete hash for witnesses: the seed's url (injective in the
url component, never used where full collision-freeness is needed). -/
def cHash : TokenSeed → String := fun s => s.url

def sampleObs : PageObs :=
  { url := "https://a.example/", title := "A", dom := ⟨1, 1, 0, 0, 0, 0⟩, domTop := []
    ax := none, frameQueue := [], queueMax := 3, droppedFrames := 0, pendingFrames := 0
    now := 5 }

def sampleExecEnv : ExecEnv :=
  { startNow := 1
    dispatch := { success := true, detail := "", selector := none, coordinates := none }
    pageUrl := "https://a.example/", eventNow := 2, endNow := 3 }

def sampleStepEnv : BrowserSession.StepEnv :=
  { budgetNow := 1, stepStart := 1, pre := sampleObs, exec := sampleExecEnv
    post := sampleObs, endNow := 3 }

def activeState : SessionState :=
  { active := true, stepIndex := 0, createdAt := 0, networkEvents := []
    builder := { lastStateToken := "" }, replay := [] }

def c1Params : SessionParams :=
  { id := "s1", traceId := "tr1", policyMode := .deterministic, maxSteps := 10
    maxDurationMs := none, captureProfile := .adaptive, maxFrames := 8 }

def c1Input : ActionInput :=
  { session_id := "s1", action := .navigate, selector := none, text := none, key := none
    url := some "javascript:alert(1)", x := none, y := none, delta_x := none
    delta_y := none, timeout_ms := none, capture := none, max_actions_per_step := none
    wait_for := none }

/-- Witness for C1: a `deterministic`-policy session denying
`navigate` to `javascript:alert(1)` yields the policy-denied result with an
unchanged step index and no replay event. -/
theorem claim_C1_policy_denied_step_witness :
    activeState.active = true
    ∧ (shouldAllowAction c1Params.policyMode c1Input).allowed = false
    ∧ ((BrowserSession.step cHash c1Params activeState c1Input sampleStepEnv).toOption.map
        (fun rs => (rs.1.action_result.status, rs.1.error_codes,
          rs.1.next_recommendation, rs.2.stepIndex, rs.2.replay.length)))
      = some ("policy_denied", ["POLICY_DENIED"], "halt", 0, 0) := by
  refine ⟨by decide, by decide, ?_⟩
  rw [(claim_C1_policy_denied_step cHash c1Params activeState c1Input sampleStepEnv
    (by decide) (by decide) (by decide) (by decide)).1]
  rfl

/-! Executor and post-state lemmas (claim C9). -/

theorem takeRight_ne_nil {α : Type} (n : Nat) (hn : 1 ≤ n) (l : List α) (hl : l ≠ []) :
    takeRight n l ≠ [] := by
  have hlen : (takeRight n l).length = l.length - (l.length - n) := List.length_drop _ _
  intro h
  rw [h] at hlen
  have hl0 : l.length ≠ 0 := fun h0 => hl (List.length_eq_zero.mp h0)
  simp at hlen
  omega

theorem trim400_spec (l : List NetworkEvent) (ev : NetworkEvent) :
    (if (l ++ [ev]).length > 400 then (l ++ [ev]).tail else l ++ [ev]) ≠ []
    ∧ (if (l ++ [ev]).length > 400 then (l ++ [ev]).tail else l ++ [ev]).getLast?
        = some ev := by
  by_cases h : (l ++ [ev]).length > 400
  · rw [if_pos h]
    cases l with
    | nil => simp at h
    | cons x xs => constructor <;> simp
  · rw [if_neg h]
    constructor <;> simp

theorem recordActionEvent_spec (input : ActionInput) (ring : List NetworkEvent)
    (success : Bool) (detail : Option String) (now : Int) (pageUrl : String) :
    ActionExecutor.recordActionEvent input ring success detail now pageUrl ≠ []
    ∧ (ActionExecutor.recordActionEvent input ring success detail now pageUrl).getLast?
        = some
          { id := toString now ++ ":" ++ actionName input.action
            url := pageUrl
            method := actionName input.action
            status := some (if success then 200 else 0)
            type := some (if success then "action" else "action_failed")
            time := now
            failureText := if success then none else detail } :=
  trim400_spec ring _

theorem execute_ring_spec (input : ActionInput) (ring : List NetworkEvent) (env : ExecEnv)
    (hmax : input.max_actions_per_step.getD 1 = 1) :
    (ActionExecutor.execute input ring env).2 ≠ []
    ∧ (ActionExecutor.execute input ring env).2.getLast?.map NetworkEvent.type
        = some (some (if env.dispatch.success then "action" else "action_failed"))
    ∧ (ActionExecutor.execute input ring env).1.success = env.dispatch.success := by
  simp only [ActionExecutor.execute, hmax]
  rw [if_neg (by simp)]
  by_cases hs : env.dispatch.success = true
  · rw [if_pos hs, hs]
    obtain ⟨h1, h2⟩ := recordActionEvent_spec input ring true none env.eventNow env.pageUrl
    exact ⟨h1, by rw [h2]; rfl, rfl⟩
  · rw [if_neg hs]
    have hs' : env.dispatch.success = false := by
      cases hcase : env.dispatch.success
      · rfl
      · exact absurd hcase hs
    rw [hs']
    obtain ⟨h1, h2⟩ := recordActionEvent_spec input ring false (some env.dispatch.detail)
      env.eventNow env.pageUrl
    exact ⟨h1, by rw [h2]; rfl, rfl⟩

theorem buildState_network_events_of_include (hash : TokenSeed → String)
    (p : SessionParams) (options : ObserveOptions) (obs : PageObs)
    (ring : List NetworkEvent) (sb : StateBuilderState)
    (h : options.includeNetwork = true) :
    (BrowserSession.buildState hash p options obs ring sb).1.network_events
      = takeRight 100 ring := by
  show (if options.includeNetwork = true then takeRight 100 ring else []) = _
  rw [if_pos h]

/-- Claim C9: when a step's action reaches the executor's dispatch (the
policy allows it and `max_actions_per_step` is 1) and the normalized
capture settings include network, the executor appends a synthetic action
event to the ring whether the dispatch succeeds or fails, so the post-state
network-events list is non-empty and `NO_NETWORK_EVENT` is never added to
that step's error codes. -/
theorem claim_C9_synthetic_event_no_network_flag (hash : TokenSeed → String)
    (p : SessionParams) (s : SessionState) (input : ActionInput)
    (env : BrowserSession.StepEnv)
    (hactive : s.active = true)
    (hsteps : s.stepIndex < p.maxSteps)
    (hdur : env.budgetNow - s.createdAt ≤ p.maxDurationMs.getD DEFAULT_MAX_DURATION_MS)
    (hallow : (shouldAllowAction p.policyMode input).allowed = true)
    (hmax : input.max_actions_per_step.getD 1 = 1)
    (hnet : (BrowserSession.normalizeCaptureSettings p input.capture).includeNetwork
      = true) :
    (match BrowserSession.step hash p s input env with
     | .ok rs =>
         rs.1.state.network_events ≠ []
         ∧ "NO_NETWORK_EVENT" ∉ rs.1.error_codes
         ∧ rs.2.networkEvents ≠ []
         ∧ rs.2.networkEvents.getLast?.map NetworkEvent.type
             = some (some (if env.exec.dispatch.success then "action" else "action_failed"))
     | .error _ => False) := by
  rw [step_eq_stepExecute hash p s input env hactive hsteps hdur hallow]
  obtain ⟨hne, hlast, hsucc⟩ := execute_ring_spec input s.networkEvents env.exec hmax
  have hn1 : ∀ pre2 : StateBuilderState,
      (BrowserSession.buildState hash p
        (BrowserSession.normalizeCaptureSettings p input.capture) env.post
        (ActionExecutor.execute input s.networkEvents env.exec).2 pre2).1.network_events
      = takeRight 100 (ActionExecutor.execute input s.networkEvents env.exec).2 :=
    fun pre2 => buildState_network_events_of_include hash p _ env.post _ pre2 hnet
  have hpostne : ∀ pre2 : StateBuilderState,
      (BrowserSession.buildState hash p
        (BrowserSession.normalizeCaptureSettings p input.capture) env.post
        (ActionExecutor.execute input s.networkEvents env.exec).2 pre2).1.network_events
      ≠ [] := fun pre2 => by
    rw [hn1 pre2]
    exact takeRight_ne_nil 100 (by omega) _ hne
  refine ⟨hpostne _, ?_, hne, hlast⟩
  show "NO_NETWORK_EVENT" ∉
    (if (BrowserSession.buildState hash p
          (BrowserSession.normalizeCaptureSettings p input.capture) env.post
          (ActionExecutor.execute input s.networkEvents env.exec).2
          (BrowserSession.buildState hash p
            (BrowserSession.normalizeCaptureSettings p input.capture) env.pre
            s.networkEvents s.builder).2).1.network_events.length = 0
     then (if (ActionExecutor.execute input s.networkEvents env.exec).1.success
        then ([] : List String) else ["ACTION_FAILED"]) ++ ["NO_NETWORK_EVENT"]
     else (if (ActionExecutor.execute input s.networkEvents env.exec).1.success
        then ([] : List String) else ["ACTION_FAILED"]))
  rw [if_neg (by
    have := hpostne (BrowserSession.buildState hash p
      (BrowserSession.normalizeCaptureSettings p input.capture) env.pre
      s.networkEvents s.builder).2
    intro hzero
    exact this (List.length_eq_zero.mp hzero))]
  by_cases hs : (ActionExecutor.execute input s.networkEvents env.exec).1.success = true
  · rw [if_pos hs]
    simp
  · rw [if_neg hs]
    simp

def c9Params : SessionParams :=
  { id := "s1", traceId := "tr1", policyMode := .model_owns_action, maxSteps := 10
    maxDurationMs := none, captureProfile := .adaptive, maxFrames := 8 }

def c9Input : ActionInput :=
  { session_id := "s1", action := .click, selector := none, text := none, key := none
    url := none, x := some 10, y := some 10, delta_x := none, delta_y := none
    timeout_ms := none, capture := none, max_actions_per_step := none, wait_for := none }

/-- Witness for C9: a coordinate click on an active session with profile
defaults (network included) yields a non-empty post-state network list, no
`NO_NETWORK_EVENT` code, and a trailing synthetic `action` event. -/
theorem claim_C9_synthetic_event_no_network_flag_witness :
    (match BrowserSession.step cHash c9Params activeState c9Input sampleStepEnv with
     | .ok rs =>
         rs.1.state.network_events ≠ []
         ∧ "NO_NETWORK_EVENT" ∉ rs.1.error_codes
         ∧ rs.2.networkEvents ≠ []
         ∧ rs.2.networkEvents.getLast?.map NetworkEvent.type
             = some (some (if sampleStepEnv.exec.dispatch.success
                 then "action" else "action_failed"))
     | .error _ => False) :=
  claim_C9_synthetic_event_no_network_flag cHash c9Params activeState c9Input sampleStepEnv
    (by decide) (by decide) (by decide) (by decide) (by decide) (by decide)

def c7Opts : ObserveOptions :=
  { includeDom := true, includeAx := true, includeNetwork := true, includeFrame := true
    maxFrames := some 4 }

/-- Witness for C7: with the url-projecting hash, three builds of the same
page give INIT, NO_CHANGE, NO_CHANGE and the build after a url mutation
gives STATE_CHANGED. -/
theorem claim_C7_change_token_sequence_witness :
    (let fresh : StateBuilderState := { lastStateToken := "" }
     let b1 := StateBuilder.buildStateSnapshot cHash c7Opts sampleObs [] fresh
     let b2 := StateBuilder.buildStateSnapshot cHash c7Opts sampleObs [] b1.2
     let b3 := StateBuilder.buildStateSnapshot cHash c7Opts sampleObs [] b2.2
     let b4 := StateBuilder.buildStateSnapshot cHash c7Opts
        { sampleObs with url := "https://b.example/" } [] b3.2
     let c2 := StateBuilder.buildStateSnapshot cHash c7Opts sampleObs [] b1.2
     b1.1.change_tokens = ["INIT"]
     ∧ b1.2.lastStateToken = b1.1.state_token
     ∧ c2.1.change_tokens
         = (if c2.1.state_token = b1.1.state_token then ["NO_CHANGE"] else ["STATE_CHANGED"])
     ∧ b2.1.change_tokens = ["NO_CHANGE"]
     ∧ b3.1.change_tokens = ["NO_CHANGE"]
     ∧ b4.1.change_tokens = ["STATE_CHANGED"]) :=
  claim_C7_change_token_sequence cHash c7Opts c7Opts sampleObs sampleObs [] []
    "https://b.example/" (by decide) (by decide)

/-! Stopped-session behaviour (claim C3). -/

def stoppedState : SessionState :=
  { active := false, stepIndex := 1, createdAt := 0, networkEvents := []
    builder := { lastStateToken := "t0" }, replay := [] }

def c3Snap : SnapshotInput :=
  { session_id := "s1", include_frame := none, include_dom := none, include_ax := none
    include_network := none }

def quietStopEnv : BrowserSession.StopEnv :=
  { closeFails := false, replayAppendFails := false, cleanupFails := false, now := 9 }

/-- Claim C3 (divergence exhibit): on a stopped session, `stop` is
idempotent (the `already_stopped`/`noop` result, state unchanged) and
`step` is rejected with `session is not active`; but `snapshot` — which the
claim says a stopped session no longer accepts — carries no active-state
check in the source: it builds and returns a state packet and even appends
a `snapshot` replay event. -/
theorem claim_C3_stopped_session_snapshot_gap :
    BrowserSession.stop c1Params stoppedState false quietStopEnv
      = ({ status := "already_stopped", cleanup := "noop"
           tracePath := "traces/tr1.jsonl", sessionId := "s1" }, stoppedState)
    ∧ BrowserSession.step cHash c1Params stoppedState c1Input sampleStepEnv
        = .error "session is not active"
    ∧ (BrowserSession.snapshot cHash c1Params stoppedState c3Snap sampleObs).2.replay.length
        = stoppedState.replay.length + 1
    ∧ (BrowserSession.snapshot cHash c1Params stoppedState c3Snap sampleObs).2.active
        = false := by
  refine ⟨by decide, by decide, by decide, by decide⟩

/-! Session-manager map lemmas (claims C4, C8, C10). -/

theorem map_fst_eraseKey {α : Type} (l : List (String × α)) (k : String) :
    (eraseKey l k).map Prod.fst = (l.map Prod.fst).filter (fun x => x != k) := by
  unfold eraseKey
  induction l with
  | nil => rfl
  | cons e tl ih =>
    rw [List.filter_cons, List.map_cons, List.filter_cons]
    by_cases h : e.1 != k
    · rw [if_pos h, if_pos h, List.map_cons, ih]
    · rw [if_neg h, if_neg h, ih]

theorem lookupKey_none_iff {α : Type} (l : List (String × α)) (k : String) :
    lookupKey l k = none ↔ k ∉ l.map Prod.fst := by
  show ((l.find? (fun x => x.1 == k)).map Prod.snd = none) ↔ _
  rw [Option.map_eq_none', List.find?_eq_none]
  constructor
  · intro h hmem
    obtain ⟨e, he, hfst⟩ := List.mem_map.mp hmem
    exact h e he (by simp [hfst])
  · intro h e he hb
    exact h (List.mem_map.mpr ⟨e, he, by simpa using hb⟩)

theorem eraseKey_of_lookup_none {α : Type} (l : List (String × α)) (k : String)
    (h : lookupKey l k = none) : eraseKey l k = l := by
  have hmem := (lookupKey_none_iff l k).mp h
  unfold eraseKey
  conv_rhs => rw [← List.filter_eq_self.mpr (fun e (he : e ∈ l) => by
    have : e.1 ≠ k := fun hc => hmem (List.mem_map.mpr ⟨e, he, hc⟩)
    simpa using this : ∀ e ∈ l, (e.1 != k) = true)]

theorem lookupKey_eraseKey_self {α : Type} (l : List (String × α)) (k : String) :
    lookupKey (eraseKey l k) k = none := by
  rw [lookupKey_none_iff, map_fst_eraseKey]
  intro hmem
  have := List.of_mem_filter hmem
  simp at this

/-- `SessionManager.stop` removes the session id from both maps and changes
nothing else; with synced key lists this also covers the unknown-id no-op
branch, and it holds for every teardown-failure environment because the
session's own stop swallows every failure. -/
theorem stop_as_erase (m : ManagerState) (sid : String) (pres : Bool)
    (env : BrowserSession.StopEnv)
    (hsync : m.sessions.map Prod.fst = m.created.map Prod.fst) :
    SessionManager.stop m sid pres env
      = { m with sessions := eraseKey m.sessions sid, created := eraseKey m.created sid } := by
  unfold SessionManager.stop
  cases hl : lookupKey m.sessions sid with
  | some h => rfl
  | none =>
    have h1 : eraseKey m.sessions sid = m.sessions := eraseKey_of_lookup_none _ _ hl
    have h2 : lookupKey m.created sid = none := by
      rw [lookupKey_none_iff]
      rw [← hsync]
      exact (lookupKey_none_iff _ _).mp hl
    have h3 : eraseKey m.created sid = m.created := eraseKey_of_lookup_none _ _ h2
    rw [h1, h3]

theorem foldl_eraseKey {α : Type} (ids : List String) (l : List (String × α)) :
    ids.foldl eraseKey l = l.filter (fun e => !(ids.any (fun i => e.1 == i))) := by
  induction ids generalizing l with
  | nil => simp
  | cons k ks ih =>
    show ks.foldl eraseKey (eraseKey l k) = _
    rw [ih]
    show (l.filter (fun e => e.1 != k)).filter (fun e => !(ks.any (fun i => e.1 == i))) = _
    rw [List.filter_filter]
    refine List.filter_congr ?_
    intro e _
    simp [bne, Bool.and_comm]

/-- The gc loop over an entry snapshot: it counts one eviction per expired
entry and erases exactly the expired ids from both maps, for every
teardown-failure environment. -/
theorem gcLoop_spec (maxAgeMs now : Int) (envs : String → BrowserSession.StopEnv) :
    ∀ (entries : List (String × Int)) (m : ManagerState) (removed : Nat),
      m.sessions.map Prod.fst = m.created.map Prod.fst →
      SessionManager.gcLoop maxAgeMs now envs entries m removed
        = (removed + (entries.filter (fun e => !decide (now - e.2 ≤ maxAgeMs))).length,
           { m with
             sessions := ((entries.filter (fun e => !decide (now - e.2 ≤ maxAgeMs))).map
               Prod.fst).foldl eraseKey m.sessions
             created := ((entries.filter (fun e => !decide (now - e.2 ≤ maxAgeMs))).map
               Prod.fst).foldl eraseKey m.created }) := by
  intro entries
  induction entries with
  | nil =>
    intro m removed _
    simp [SessionManager.gcLoop]
  | cons e rest ih =>
    intro m removed hsync
    obtain ⟨sid, t⟩ := e
    rw [SessionManager.gcLoop]
    by_cases hfresh : now - t ≤ maxAgeMs
    · rw [if_pos hfresh, ih m removed hsync, List.filter_cons,
        if_neg (by simp [hfresh])]
    · rw [if_neg hfresh, stop_as_erase m sid false (envs sid) hsync]
      have hsync2 : (eraseKey m.sessions sid).map Prod.fst
          = (eraseKey m.created sid).map Prod.fst := by
        rw [map_fst_eraseKey, map_fst_eraseKey, hsync]
      rw [ih _ (removed + 1) hsync2, List.filter_cons, if_pos (by simp [hfresh])]
      show (removed + 1 + _, _) = _
      rw [List.map_cons, List.foldl_cons, List.length_cons]
      refine Prod.ext ?_ rfl
      show removed + 1 + _ = removed + (_ + 1)
      omega

/-- Claim C4: `gc()` stops (non-preserving) exactly the sessions whose
last-touch timestamp is more than `max_age_ms` before now, returns the
count evicted, and keeps sweeping the remaining sessions whatever
per-session teardown failures occur — the failure environments `envs` are
arbitrary and the sweep result does not depend on them, because every
fallible operation of a session's stop is individually swallowed.
Hypotheses: the two manager maps carry the same keys (they are always
updated together) and the keys are distinct (they live in a JS `Map`). -/
theorem claim_C4_gc_sweep (m : ManagerState) (now : Int)
    (envs envs2 : String → BrowserSession.StopEnv)
    (hsync : m.sessions.map Prod.fst = m.created.map Prod.fst)
    (hnd : (m.created.map Prod.fst).Nodup) :
    (SessionManager.gc m now envs).1
        = (m.created.filter (fun e => !decide (now - e.2 ≤ m.maxAgeMs))).length
    ∧ (SessionManager.gc m now envs).2.created
        = m.created.filter (fun e => decide (now - e.2 ≤ m.maxAgeMs))
    ∧ (SessionManager.gc m now envs).2.sessions
        = m.sessions.filter (fun pr =>
            !(((m.created.filter (fun e => !decide (now - e.2 ≤ m.maxAgeMs))).map
              Prod.fst).any (fun i => pr.1 == i)))
    ∧ SessionManager.gc m now envs = SessionManager.gc m now envs2 := by
  have h1 := gcLoop_spec m.maxAgeMs now envs m.created m 0 hsync
  have h2 := gcLoop_spec m.maxAgeMs now envs2 m.created m 0 hsync
  refine ⟨?_, ?_, ?_, ?_⟩
  · show (SessionManager.gcLoop m.maxAgeMs now envs m.created m 0).1 = _
    rw [h1]
    show 0 + _ = _
    omega
  · show (SessionManager.gcLoop m.maxAgeMs now envs m.created m 0).2.created = _
    rw [h1]
    show ((m.created.filter (fun e => !decide (now - e.2 ≤ m.maxAgeMs))).map
      Prod.fst).foldl eraseKey m.created = _
    rw [foldl_eraseKey]
    refine List.filter_congr ?_
    intro e he
    by_cases hex : now - e.2 ≤ m.maxAgeMs
    · have hno : (((m.created.filter (fun x => !decide (now - x.2 ≤ m.maxAgeMs))).map
          Prod.fst).any (fun i => e.1 == i)) = false := by
        rw [← Bool.not_eq_true, List.any_eq_true]
        rintro ⟨i, hi, hbeq⟩
        obtain ⟨f, hf, hfi⟩ := List.mem_map.mp hi
        have hfc : f ∈ m.created := List.mem_of_mem_filter hf
        have hbe : e.1 = i := by simpa using hbeq
        have hfe : f.1 = e.1 := by rw [hfi, ← hbe]
        have hfeq : f = e := List.inj_on_of_nodup_map hnd hfc he hfe
        have hexp := List.of_mem_filter hf
        rw [hfeq] at hexp
        simp [hex] at hexp
      rw [hno]
      simp [hex]
    · have hid : e.1 ∈ (m.created.filter (fun x => !decide (now - x.2 ≤ m.maxAgeMs))).map
          Prod.fst :=
        List.mem_map.mpr ⟨e, List.mem_filter.mpr ⟨he, by simp [hex]⟩, rfl⟩
      have hany : (((m.created.filter (fun x => !decide (now - x.2 ≤ m.maxAgeMs))).map
          Prod.fst).any (fun i => e.1 == i)) = true :=
        List.any_eq_true.mpr ⟨e.1, hid, by simp⟩
      rw [hany]
      simp [hex]
  · show (SessionManager.gcLoop m.maxAgeMs now envs m.created m 0).2.sessions = _
    rw [h1]
    show ((m.created.filter (fun e => !decide (now - e.2 ≤ m.maxAgeMs))).map
      Prod.fst).foldl eraseKey m.sessions = _
    rw [foldl_eraseKey]
  · show SessionManager.gcLoop m.maxAgeMs now envs m.created m 0
        = SessionManager.gcLoop m.maxAgeMs now envs2 m.created m 0
    rw [h1, h2]

def gcHandle (id : String) : SessionHandle :=
  { params := { id := id, traceId := "tr_" ++ id, policyMode := .model_owns_action
                maxSteps := 5, maxDurationMs := none, captureProfile := .adaptive
                maxFrames := 8 }
    state := activeState }

def c4Manager : ManagerState :=
  { sessions := [("old", gcHandle "old"), ("fresh", gcHandle "fresh")]
    created := [("old", 0), ("fresh", 100)]
    maxSessions := 5, allowedDomains := [], deniedDomains := []
    maxAgeMs := 50, policyMode := .model_owns_action }

def failingStopEnv : BrowserSession.StopEnv :=
  { closeFails := true, replayAppendFails := true, cleanupFails := true, now := 100 }

/-- Witness for C4: a pool with one expired and one fresh session, swept at
`now = 100` with every teardown operation failing: one session evicted, the
fresh one kept, and the result identical to a failure-free sweep. -/
theorem claim_C4_gc_sweep_witness :
    (SessionManager.gc c4Manager 100 (fun _ => failingStopEnv)).1
        = (c4Manager.created.filter
            (fun e => !decide ((100 : Int) - e.2 ≤ c4Manager.maxAgeMs))).length
    ∧ (SessionManager.gc c4Manager 100 (fun _ => failingStopEnv)).2.created
        = c4Manager.created.filter (fun e => decide ((100 : Int) - e.2 ≤ c4Manager.maxAgeMs))
    ∧ (SessionManager.gc c4Manager 100 (fun _ => failingStopEnv)).2.sessions
        = c4Manager.sessions.filter (fun pr =>
            !(((c4Manager.created.filter
                (fun e => !decide ((100 : Int) - e.2 ≤ c4Manager.maxAgeMs))).map
              Prod.fst).any (fun i => pr.1 == i)))
    ∧ SessionManager.gc c4Manager 100 (fun _ => failingStopEnv)
        = SessionManager.gc c4Manager 100 (fun _ => quietStopEnv) :=
  claim_C4_gc_sweep c4Manager 100 (fun _ => failingStopEnv) (fun _ => quietStopEnv)
    (by decide) (by decide)

/-- Claim C8: when the pool is full and `create` is called with a target
url that fails validation, the oldest session is still stopped and removed
before `create` throws the joined validation errors — the eviction
performed ahead of validation is not rolled back. -/
theorem claim_C8_eviction_survives_validation_failure
    (parse : String → Option ParsedUrl) (m : ManagerState)
    (input : SessionCreateInput) (env : SessionManager.CreateEnv) (oldest : String)
    (hfull : m.sessions.length ≥ m.maxSessions)
    (hold : SessionManager.getOldestSessionId m.created = some oldest)
    (hbad : (validateUrl parse input.target_url m.allowedDomains m.deniedDomains).ok
      = false) :
    SessionManager.create parse m input env
      = (SessionManager.stop m oldest false env.stopEnv,
         .error (String.intercalate "; "
           ((validateUrl parse input.target_url m.allowedDomains m.deniedDomains).errors.map
             (fun item => item.code ++ ":" ++ item.message))))
    ∧ lookupKey (SessionManager.create parse m input env).1.sessions oldest = none := by
  have hmain : SessionManager.create parse m input env
      = (SessionManager.stop m oldest false env.stopEnv,
         .error (String.intercalate "; "
           ((validateUrl parse input.target_url m.allowedDomains m.deniedDomains).errors.map
             (fun item => item.code ++ ":" ++ item.message)))) := by
    simp only [SessionManager.create]
    rw [if_pos hfull, hold, if_pos hbad]
  refine ⟨hmain, ?_⟩
  rw [hmain]
  show lookupKey (SessionManager.stop m oldest false env.stopEnv).sessions oldest = none
  unfold SessionManager.stop
  cases hl : lookupKey m.sessions oldest with
  | none => exact hl
  | some h => exact lookupKey_eraseKey_self _ _

def c8Manager : ManagerState :=
  { sessions := [("s1", gcHandle "s1")], created := [("s1", 10)]
    maxSessions := 1, allowedDomains := [], deniedDomains := []
    maxAgeMs := 50, policyMode := .model_owns_action }

def c8Input : SessionCreateInput :=
  { target_url := "not a url", capture_profile := none, policy := none
    max_steps := none, max_duration_ms := none }

/-- A URL parser on which every string throws (the `new URL` failure path). -/
def noParse : String → Option ParsedUrl := fun _ => none

def c8Env : SessionManager.CreateEnv :=
  { stopEnv := quietStopEnv, sessionId := "u2", nowMs := 50
    startOutcome := .error "unused" }

/-- Witness for C8: a full single-slot pool and an unparseable target url:
the resident session is evicted even though create throws. -/
theorem claim_C8_eviction_survives_validation_failure_witness :
    SessionManager.create noParse c8Manager c8Input c8Env
      = (SessionManager.stop c8Manager "s1" false c8Env.stopEnv,
         .error (String.intercalate "; "
           ((validateUrl noParse c8Input.target_url c8Manager.allowedDomains
              c8Manager.deniedDomains).errors.map
             (fun item => item.code ++ ":" ++ item.message))))
    ∧ lookupKey (SessionManager.create noParse c8Manager c8Input c8Env).1.sessions "s1"
        = none :=
  claim_C8_eviction_survives_validation_failure noParse c8Manager c8Input c8Env "s1"
    (by decide) (by decide) (by decide)

/-- Claim C10: after a successful `web_agent_session_stop` tool call the
session is removed from the manager, and a second stop call with the same
id throws `Unknown session_id: {id}` instead of returning a no-op result. -/
theorem claim_C10_second_stop_throws_unknown (m : ManagerState) (input : StopInput)
    (env env2 : BrowserSession.StopEnv) (h : SessionHandle)
    (hfound : lookupKey m.sessions input.session_id = some h) :
    ((ToolHandler.stop m input env).2).isOk = true
    ∧ ToolHandler.stop (ToolHandler.stop m input env).1 input env2
        = ((ToolHandler.stop m input env).1,
           .error ("Unknown session_id: " ++ input.session_id)) := by
  have hnone : lookupKey (ToolHandler.stop m input env).1.sessions input.session_id
      = none := by
    unfold ToolHandler.stop
    rw [hfound]
    show lookupKey (SessionManager.stop m input.session_id
      (input.preserve_artifacts.getD false) env).sessions input.session_id = none
    unfold SessionManager.stop
    rw [hfound]
    exact lookupKey_eraseKey_self _ _
  constructor
  · show ((ToolHandler.stop m input env).2).isOk = true
    unfold ToolHandler.stop
    rw [hfound]
    rfl
  · obtain ⟨m1, hm1⟩ : ∃ m1, (ToolHandler.stop m input env).1 = m1 := ⟨_, rfl⟩
    rw [hm1] at hnone ⊢
    unfold ToolHandler.stop
    rw [hnone]

def c10Manager : ManagerState :=
  { sessions := [("s1", gcHandle "s1")], created := [("s1", 10)]
    maxSessions := 4, allowedDomains := [], deniedDomains := []
    maxAgeMs := 50, policyMode := .model_owns_action }

def c10Stop : StopInput := { session_id := "s1", preserve_artifacts := none }

/-- Witness for C10: stopping session `s1` succeeds once, and the second
stop call with the same id throws `Unknown session_id: s1`. -/
theorem claim_C10_second_stop_throws_unknown_witness :
    ((ToolHandler.stop c10Manager c10Stop quietStopEnv).2).isOk = true
    ∧ ToolHandler.stop (ToolHandler.stop c10Manager c10Stop quietStopEnv).1 c10Stop
        quietStopEnv
      = ((ToolHandler.stop c10Manager c10Stop quietStopEnv).1,
         .error ("Unknown session_id: " ++ c10Stop.session_id)) :=
  claim_C10_second_stop_throws_unknown c10Manager c10Stop quietStopEnv quietStopEnv
    (gcHandle "s1") (by decide)

/-- Witness for C2: capacity 2, five pushes (`N = C + 3`): depth 2,
dropped 3, tail = 14 (the last value pushed). -/
theorem claim_C2_frame_ring_eviction_witness :
    ((FixedRingBuffer.fresh Nat 2).pushAll [10, 11, 12, 13, 14]).depth
        = min [10, 11, 12, 13, 14].length 2
    ∧ ((FixedRingBuffer.fresh Nat 2).pushAll [10, 11, 12, 13, 14]).depth ≤ 2
    ∧ ((FixedRingBuffer.fresh Nat 2).pushAll [10, 11, 12, 13, 14]).dropped
        = [10, 11, 12, 13, 14].length - 2
    ∧ ((FixedRingBuffer.fresh Nat 2).pushAll [10, 11, 12, 13, 14]).items.getLast?
        = [10, 11, 12, 13, 14].getLast? :=
  claim_C2_frame_ring_eviction 2 (by decide) [10, 11, 12, 13, 14]

end WebMCP
